import Mathlib

/-!
# sling-cli `core/env`: configuration snapshot, logger initialisation, usage telemetry

A shallow embedding of `core/env/env.go` and the properties of its three
operations `EnvVars`, `InitLogger` and `LogEvent`.

* Go strings are byte sequences: `GoString := List Byte`.
* The process environment is an explicit argument (`Environ`), read with `Getenv`.
* The package-level variables written by `InitLogger` (this package's
  `DisableSendAnonUsage`, the `g` logger variables and the `zerolog` globals)
  are the fields of `State`; `InitLogger` is a state transformer.
* `LogEvent` returns the sequence of calls it makes to its collaborators
  (`json.Marshal`, `g.LogError`, `net.ClientDo`) as a list of `Effect`s.
* Library behaviour the package does not define (`json.Marshal`, the answer of
  `net.ClientDo`, `g.IsDebugLow`, `cast.ToInt`) is the record `Lib`, an argument.
  `url.QueryEscape`, `url.QueryUnescape`, `cast.ToBool` and `cast.ToString` on a
  bool are small and are written out from the Go library sources.
-/

namespace Sling

/-! ## Go strings -/

/-- A Go `byte`. -/
abbrev Byte := Fin 256

/-- A Go `string`: an immutable sequence of bytes. -/
abbrev GoString := List Byte

/-- A Go string literal: the UTF-8 bytes of the text. -/
def lit (s : String) : GoString :=
  (s.data.flatMap String.utf8EncodeChar).map UInt8.val

/-- A Go byte literal such as `'%'` (ASCII only). -/
def ch (c : Char) : Byte := Fin.ofNat c.toNat

/-! ## The process environment -/

/-- The process environment, `NAME=value` pairs in the order of `os.Environ`. -/
abbrev Environ := List (GoString × GoString)

/-- `os.Getenv`: the value of the first entry named `key`, the empty string
when there is none. -/
def Getenv : Environ → GoString → GoString
  | [], _ => []
  | (k, v) :: rest, key => if k = key then v else Getenv rest key

/-! ## Go maps `map[string]string` -/

/-- A `map[string]string`, as the list of its entries (no key twice). -/
abbrev GoMap := List (GoString × GoString)

namespace GoMap

/-- The two-result read `v, ok := m[k]`. -/
def find : GoMap → GoString → Option GoString
  | [], _ => none
  | (k', v) :: rest, k => if k' = k then some v else find rest k

/-- The read `m[k]`: the zero value `""` for a missing key. -/
def get (m : GoMap) (k : GoString) : GoString :=
  match find m k with
  | some v => v
  | none => []

/-- The assignment `m[k] = v`. -/
def set : GoMap → GoString → GoString → GoMap
  | [], k, v => [(k, v)]
  | (k', v') :: rest, k, v =>
    if k' = k then (k, v) :: rest else (k', v') :: set rest k v

/-- The keys of the map. -/
def keys (m : GoMap) : List GoString := m.map Prod.fst

end GoMap

/-! ## `net/url`: query escaping (mode `encodeQueryComponent`) -/

/-- The table `upperhex` of `net/url`. -/
def upperhex : GoString := lit "0123456789ABCDEF"

/-- Go `net/url.ishex`. -/
def ishex (c : Byte) : Bool :=
  if ch '0' ≤ c ∧ c ≤ ch '9' then true
  else if ch 'a' ≤ c ∧ c ≤ ch 'f' then true
  else if ch 'A' ≤ c ∧ c ≤ ch 'F' then true
  else false

/-- Go `net/url.unhex`; byte arithmetic is modulo 256. -/
def unhex (c : Byte) : Byte :=
  if ch '0' ≤ c ∧ c ≤ ch '9' then c - ch '0'
  else if ch 'a' ≤ c ∧ c ≤ ch 'f' then c - ch 'a' + 10
  else if ch 'A' ≤ c ∧ c ≤ ch 'F' then c - ch 'A' + 10
  else 0

/-- Go `net/url.shouldEscape c encodeQueryComponent`: letters, digits and the
marks `-_.~` are kept; the reserved characters and everything else are
escaped. -/
def shouldEscape (c : Byte) : Bool :=
  if (ch 'a' ≤ c ∧ c ≤ ch 'z') ∨ (ch 'A' ≤ c ∧ c ≤ ch 'Z') ∨ (ch '0' ≤ c ∧ c ≤ ch '9') then
    false
  else if c = ch '-' ∨ c = ch '_' ∨ c = ch '.' ∨ c = ch '~' then
    false
  else
    true

/-- First loop of `net/url.escape`: the pair `(spaceCount, hexCount)`. -/
def escapeCount : GoString → Nat × Nat
  | [] => (0, 0)
  | c :: rest =>
    let (spaceCount, hexCount) := escapeCount rest
    if shouldEscape c then
      if c = ch ' ' then (spaceCount + 1, hexCount) else (spaceCount, hexCount + 1)
    else (spaceCount, hexCount)

/-- The branch `hexCount == 0` of `net/url.escape`: a copy of `s` with each
space replaced by `+`. -/
def escapeSpaces : GoString → GoString
  | [] => []
  | c :: rest => (if c = ch ' ' then ch '+' else c) :: escapeSpaces rest

/-- Last loop of `net/url.escape`: `+` for a space, `%XX` for a byte to
escape, the byte itself otherwise. -/
def escapeLoop : GoString → GoString
  | [] => []
  | c :: rest =>
    if c = ch ' ' then ch '+' :: escapeLoop rest
    else if shouldEscape c then
      ch '%' :: upperhex.getD (c.val >>> 4) 0 :: upperhex.getD (c.val &&& 15) 0 :: escapeLoop rest
    else c :: escapeLoop rest

/-- Go `net/url.QueryEscape`, that is `escape(s, encodeQueryComponent)`. -/
def QueryEscape (s : GoString) : GoString :=
  let (spaceCount, hexCount) := escapeCount s
  if spaceCount = 0 ∧ hexCount = 0 then s
  else if hexCount = 0 then escapeSpaces s
  else escapeLoop s

/-- First loop of `net/url.unescape`: counts the `%` (`n`), records a `+`
(`hasPlus`), and fails with the offending bytes (`EscapeError`, at most three)
on a `%` not followed by two hex digits. -/
def unescapeScan : GoString → Nat → Bool → Except GoString (Nat × Bool)
  | [], n, hasPlus => .ok (n, hasPlus)
  | c :: rest, n, hasPlus =>
    if c = ch '%' then
      match rest with
      | a :: b :: rest' =>
        if ishex a && ishex b then unescapeScan rest' (n + 1) hasPlus
        else .error ((c :: rest).take 3)
      | _ => .error ((c :: rest).take 3)
    else if c = ch '+' then unescapeScan rest n true
    else unescapeScan rest n hasPlus

/-- Second loop of `net/url.unescape`, run only on input the first loop
accepted: `%XY` becomes the byte `unhex X << 4 | unhex Y`, `+` a space. -/
def unescapeLoop : GoString → GoString
  | [] => []
  | c :: rest =>
    if c = ch '%' then
      match rest with
      | a :: b :: rest' =>
        Fin.ofNat ((((unhex a).val <<< 4) % 256) ||| (unhex b).val) :: unescapeLoop rest'
      | _ => []
    else if c = ch '+' then ch ' ' :: unescapeLoop rest
    else c :: unescapeLoop rest

/-- Go `net/url.QueryUnescape`, that is `unescape(s, encodeQueryComponent)`:
the decoded string and the error; on an error the string is `""`. -/
def QueryUnescape (s : GoString) : GoString × Option GoString :=
  match unescapeScan s 0 false with
  | .error e => ([], some e)
  | .ok (n, hasPlus) =>
    if n = 0 ∧ hasPlus = false then (s, none)
    else (unescapeLoop s, none)

/-! ## `EnvVars` -/

/-- The allowlist `envVars` (with `SSH_PRIVATE_KEY` listed twice, as in the
source). -/
def envVars : List GoString := [
  lit "SLING_PARALLEL", lit "AWS_BUCKET", lit "AWS_ACCESS_KEY_ID",
  lit "AWS_SECRET_ACCESS_KEY", lit "AWS_SESSION_TOKEN", lit "AWS_ENDPOINT", lit "AWS_REGION",
  lit "SLING_COMPRESSION", lit "SLING_FILE_ROW_LIMIT", lit "SLING_SAMPLE_SIZE",
  lit "GC_BUCKET", lit "GC_CRED_FILE", lit "GSHEETS_CRED_FILE",
  lit "GC_CRED_JSON_BODY", lit "GC_CRED_JSON_BODY_ENC", lit "GC_CRED_API_KEY",
  lit "AZURE_ACCOUNT", lit "AZURE_KEY", lit "AZURE_CONTAINER", lit "AZURE_SAS_SVC_URL",
  lit "AZURE_CONN_STR", lit "SSH_TUNNEL", lit "SSH_PRIVATE_KEY", lit "SSH_PUBLIC_KEY",
  lit "SLING_CONCURENCY_LIMIT",

  lit "SLING_SMTP_HOST", lit "SLING_SMTP_PORT", lit "SLING_SMTP_USERNAME",
  lit "SLING_SMTP_PASSWORD", lit "SLING_SMTP_FROM_EMAIL", lit "SLING_SMTP_REPLY_EMAIL",

  lit "SFTP_USER", lit "SFTP_PASSWORD", lit "SFTP_HOST", lit "SFTP_PORT",
  lit "SSH_PRIVATE_KEY", lit "SFTP_PRIVATE_KEY", lit "SFTP_URL",

  lit "HTTP_USER", lit "HTTP_PASSWORD", lit "GSHEET_CLIENT_JSON_BODY",
  lit "GSHEET_SHEET_NAME", lit "GSHEET_MODE",

  lit "DIGITALOCEAN_ACCESS_TOKEN", lit "GITHUB_ACCESS_TOKEN",
  lit "SURVEYMONKEY_ACCESS_TOKEN",

  lit "SLING_SEND_ANON_USAGE", lit "SLING_HOME"
]

/-- Body of the first loop of `EnvVars`:
`if vars[k] == "" { vars[k] = os.Getenv(k) }`. -/
def loadVar (env : Environ) (vars : GoMap) (k : GoString) : GoMap :=
  if GoMap.get vars k = [] then GoMap.set vars k (Getenv env k) else vars

/-- Body of the second loop of `EnvVars`:
`if vars[k] == "" { vars[k] = "true" }`. -/
def defaultTrue (vars : GoMap) (k : GoString) : GoMap :=
  if GoMap.get vars k = [] then GoMap.set vars k (lit "true") else vars

/-- Go `EnvVars()`, run in the environment `env`. -/
def EnvVars (env : Environ) : GoMap :=
  let vars : GoMap := []
  -- get default from environment
  let vars := envVars.foldl (loadVar env) vars
  -- default as true
  let vars := ([] : List GoString).foldl defaultTrue vars
  let vars :=
    if GoMap.get vars (lit "SLING_CONCURENCY_LIMIT") = [] then
      GoMap.set vars (lit "SLING_CONCURENCY_LIMIT") (lit "10")
    else vars
  let vars :=
    if GoMap.get vars (lit "SLING_SAMPLE_SIZE") = [] then
      GoMap.set vars (lit "SLING_SAMPLE_SIZE") (lit "900")
    else vars
  let bodyEnc := GoMap.get vars (lit "GC_CRED_JSON_BODY_ENC")
  if bodyEnc ≠ [] then
    let body := (QueryUnescape bodyEnc).1
    GoMap.set vars (lit "GC_CRED_JSON_BODY") body
  else vars

/-- The map of `EnvVars` after the first loop and the two defaults, before the
encoded credential body is looked at. -/
def defaulted (env : Environ) : GoMap :=
  let vars := envVars.foldl (loadVar env) []
  let vars :=
    if GoMap.get vars (lit "SLING_CONCURENCY_LIMIT") = [] then
      GoMap.set vars (lit "SLING_CONCURENCY_LIMIT") (lit "10")
    else vars
  if GoMap.get vars (lit "SLING_SAMPLE_SIZE") = [] then
    GoMap.set vars (lit "SLING_SAMPLE_SIZE") (lit "900")
  else vars

/-! ## Library values used by `InitLogger` and `LogEvent` -/

/-- Go `cast.ToBool` on a string: `strconv.ParseBool`, with `false` for
whatever it does not parse. -/
def ToBool (s : GoString) : Bool :=
  if s = lit "1" ∨ s = lit "t" ∨ s = lit "T" ∨ s = lit "true" ∨ s = lit "TRUE" ∨ s = lit "True" then
    true
  else
    false

/-- Go `cast.ToString` on a bool: `strconv.FormatBool`. -/
def ToString (b : Bool) : GoString :=
  if b then lit "true" else lit "false"

/-- The levels `zerolog.Level`. -/
inductive ZLevel
  | TraceLevel | DebugLevel | InfoLevel | WarnLevel | ErrorLevel | FatalLevel | PanicLevel
  | NoLevel | Disabled
  deriving DecidableEq, Repr

/-- The levels `g.Level`. -/
inductive GLevel
  | TraceLevel | LowDebugLevel | DebugLevel | NormalLevel | WarnLevel
  deriving DecidableEq, Repr

/-- The two files a logger writes to: `os.Stdout` and `os.Stderr`. -/
inductive Stream
  | Stdout | Stderr
  deriving DecidableEq, Repr

/-- The field `FormatErrFieldValue` of a console writer: unset, or the
closure `func(i interface{}) string { return fmt.Sprintf("%s", i) }`. -/
inductive ErrFormatter
  | unset | sprintfS
  deriving DecidableEq, Repr

/-- The fields of `zerolog.ConsoleWriter` that `InitLogger` gives a value. -/
structure ConsoleWriter where
  Out : Stream
  NoColor : Bool
  TimeFormat : GoString
  FormatErrFieldValue : ErrFormatter
  deriving DecidableEq, Repr

/-- The `io.Writer` handed to `zerolog.New`: a file itself, or a console
writer around one. -/
inductive Writer
  | file (f : Stream)
  | console (w : ConsoleWriter)
  deriving DecidableEq, Repr

/-- A `zerolog.Logger` as `InitLogger` builds it. -/
structure Logger where
  w : Writer
  timestamp : Bool
  deriving DecidableEq, Repr

/-- Go `zerolog.New(w).With().Timestamp().Logger()`. -/
def newTimestampLogger (w : Writer) : Logger := { w := w, timestamp := true }

/-- The file a writer ends in. -/
def Writer.target : Writer → Stream
  | .file f => f
  | .console w => w.Out

/-- The package variables of `zerolog` that `InitLogger` writes. -/
structure ZerologVars where
  GlobalLevel : ZLevel
  LevelFieldName : GoString
  MessageFieldName : GoString
  deriving DecidableEq, Repr

/-- The package variables of `g` that `InitLogger` writes. -/
structure GVars where
  LogLevel : GLevel
  CallerLevel : Int
  DisableColor : Bool
  LogOut : Logger
  LogErr : Logger
  deriving DecidableEq, Repr

/-- The global state: this package's `DisableSendAnonUsage` and the logging
state held by `g` and `zerolog`. -/
structure State where
  DisableSendAnonUsage : Bool
  g : GVars
  zerolog : ZerologVars
  deriving DecidableEq, Repr

/-- The logging state: log levels, caller level, field names, color setting
and the two loggers. -/
def State.logging (s : State) : GVars × ZerologVars := (s.g, s.zerolog)

/-- A value of a `map[string]interface{}`; a channel stands for the values
`encoding/json` cannot encode. -/
inductive GoValue
  | null
  | bool (b : Bool)
  | int (n : Int)
  | str (s : GoString)
  | chan
  deriving DecidableEq, Repr

/-- The argument of `LogEvent`, a `map[string]interface{}`. -/
abbrev Event := List (GoString × GoValue)

/-- The arguments of one call of `net.ClientDo`. -/
structure Request where
  method : GoString
  URL : GoString
  body : List Byte
  headers : GoMap
  timeOut : Int
  deriving DecidableEq, Repr

/-- Behaviour of the libraries that the package calls and does not define.
A Go `error` is its message; `none` is `nil`. -/
structure Lib where
  /-- Go `json.Marshal`: the bytes and the error. -/
  Marshal : Event → List Byte × Option GoString
  /-- The error that `net.ClientDo` returns for a request. -/
  ClientDo : Request → Option GoString
  /-- Go `g.IsDebugLow()`, which reads the log level of `g` (and may read the
  environment). -/
  IsDebugLow : GLevel → Environ → Bool
  /-- Go `cast.ToInt` on a string. -/
  ToInt : GoString → Int

/-- A call that `LogEvent` makes to a collaborator. -/
inductive Effect
  | jsonMarshal (m : Event)
  | logError (err : GoString)
  | clientDo (r : Request)
  deriving DecidableEq, Repr

/-- The HTTP requests among the calls made. -/
def requests : List Effect → List Request
  | [] => []
  | .clientDo r :: rest => r :: requests rest
  | _ :: rest => requests rest

/-- The events handed to `json.Marshal` among the calls made. -/
def marshals : List Effect → List Event
  | [] => []
  | .jsonMarshal m :: rest => m :: marshals rest
  | _ :: rest => marshals rest

/-! ## `LogEvent` -/

/-- The block `if err != nil { if g.IsDebugLow() { g.LogError(err) } }`. -/
def logIfDebugLow (lib : Lib) (env : Environ) (s : State) (err : Option GoString) : List Effect :=
  match err with
  | some e => if lib.IsDebugLow s.g.LogLevel env then [.logError e] else []
  | none => []

/-- Go `LogEvent(m)`, run in the environment `env` and the global state `s`:
the calls it makes, in order. -/
def LogEvent (lib : Lib) (env : Environ) (s : State) (m : Event) : List Effect :=
  if s.DisableSendAnonUsage then
    []
  else
    let URL :=
      if Getenv env (lit "SLING_ENV") = lit "STG" then
        lit "https://logapi.slingdata.io/log/event/stg"
      else
        lit "https://logapi.slingdata.io/log/event/prd"
    let (jsonBytes, err) := lib.Marshal m
    let r : Request := {
      method := lit "POST",
      URL := URL,
      body := jsonBytes,
      headers := [(lit "Content-Type", lit "application/json")],
      timeOut := 1 }
    [.jsonMarshal m] ++ logIfDebugLow lib env s err
      ++ [.clientDo r] ++ logIfDebugLow lib env s (lib.ClientDo r)

/-! ## `InitLogger` -/

/-- Go `g.SetZeroLogLevel`: sets the global level of `zerolog`. -/
def SetZeroLogLevel (level : ZLevel) (s : State) : State :=
  { s with zerolog := { s.zerolog with GlobalLevel := level } }

/-- Go `g.SetLogLevel`: sets the log level of `g`. -/
def SetLogLevel (level : GLevel) (s : State) : State :=
  { s with g := { s.g with LogLevel := level } }

/-- Line 110 of `InitLogger`:
`g.DisableColor = !cast.ToBool(os.Getenv("SLING_LOGGING_COLOR"))`. -/
def setColor (env : Environ) (s : State) : State :=
  { s with g := { s.g with DisableColor := !ToBool (Getenv env (lit "SLING_LOGGING_COLOR")) } }

/-- Lines 112-114 of `InitLogger`: the opt-out flag is written when
`SLING_SEND_ANON_USAGE` is not empty. -/
def setOptOut (env : Environ) (s : State) : State :=
  let val := Getenv env (lit "SLING_SEND_ANON_USAGE")
  if val ≠ [] then { s with DisableSendAnonUsage := ToBool val } else s

/-- Lines 116-118 of `InitLogger`: the caller level is written when
`_DEBUG_CALLER_LEVEL` is not empty. -/
def setCallerLevel (lib : Lib) (env : Environ) (s : State) : State :=
  if Getenv env (lit "_DEBUG_CALLER_LEVEL") ≠ [] then
    { s with g := { s.g with CallerLevel := lib.ToInt (Getenv env (lit "_DEBUG_CALLER_LEVEL")) } }
  else s

/-- Lines 119-128 of `InitLogger`: the levels selected by `_DEBUG`. -/
def setDebugLevel (env : Environ) (s : State) : State :=
  if Getenv env (lit "_DEBUG") = lit "TRACE" then
    let s := SetZeroLogLevel .TraceLevel s
    SetLogLevel .TraceLevel s
  else if Getenv env (lit "_DEBUG") ≠ [] then
    let s := SetZeroLogLevel .DebugLevel s
    let s := SetLogLevel .DebugLevel s
    if Getenv env (lit "_DEBUG") = lit "LOW" then SetLogLevel .LowDebugLevel s else s
  else s

/-- Lines 133-162 of `InitLogger`: the writers and the two loggers selected by
`G_LOGGING`. -/
def setLoggers (lib : Lib) (env : Environ) (s : State) : State :=
  let outputOut : ConsoleWriter :=
    { Out := .Stdout, NoColor := false, TimeFormat := lit "2006-01-02 15:04:05",
      FormatErrFieldValue := .unset }
  let outputErr : ConsoleWriter :=
    { Out := .Stderr, NoColor := false, TimeFormat := lit "2006-01-02 15:04:05",
      FormatErrFieldValue := .unset }
  let outputOut := { outputOut with FormatErrFieldValue := .sprintfS }
  let outputErr := { outputErr with FormatErrFieldValue := .sprintfS }
  if Getenv env (lit "G_LOGGING") = lit "TASK" then
    let outputOut := { outputOut with NoColor := true }
    let outputErr := { outputErr with NoColor := true }
    let s := { s with g := { s.g with LogOut := newTimestampLogger (.console outputOut) } }
    { s with g := { s.g with LogErr := newTimestampLogger (.console outputErr) } }
  else if Getenv env (lit "G_LOGGING") = lit "MASTER" ∨
      Getenv env (lit "G_LOGGING") = lit "WORKER" then
    let s := { s with zerolog := { s.zerolog with LevelFieldName := lit "lvl" } }
    let s := { s with zerolog := { s.zerolog with MessageFieldName := lit "msg" } }
    let s := { s with g := { s.g with LogOut := newTimestampLogger (.file .Stdout) } }
    { s with g := { s.g with LogErr := newTimestampLogger (.file .Stdout) } }
  else
    let outputErr : ConsoleWriter :=
      { Out := .Stderr, NoColor := false, TimeFormat := lit "3:04PM",
        FormatErrFieldValue := .unset }
    let outputErr : ConsoleWriter :=
      if lib.IsDebugLow s.g.LogLevel env then
        { Out := .Stderr, NoColor := false, TimeFormat := lit "2006-01-02 15:04:05",
          FormatErrFieldValue := .unset }
      else outputErr
    let s := { s with g := { s.g with LogOut := newTimestampLogger (.console outputErr) } }
    { s with g := { s.g with LogErr := newTimestampLogger (.console outputErr) } }

/-- Go `InitLogger()`, run in the environment `env` from the global state `s`:
its statements in order. -/
def InitLogger (lib : Lib) (env : Environ) (s : State) : State :=
  let s := SetZeroLogLevel .InfoLevel s
  let s := setColor env s
  let s := setOptOut env s
  let s := setCallerLevel lib env s
  let s := setDebugLevel env s
  setLoggers lib env s

/-- The log level of `g` after `InitLogger` in `env`, from the level `old`
before it: what `_DEBUG` selects, and `old` when `_DEBUG` is unset or empty. -/
def levelAfter (env : Environ) (old : GLevel) : GLevel :=
  if Getenv env (lit "_DEBUG") = lit "TRACE" then GLevel.TraceLevel
  else if Getenv env (lit "_DEBUG") ≠ [] then
    if Getenv env (lit "_DEBUG") = lit "LOW" then GLevel.LowDebugLevel else GLevel.DebugLevel
  else old

/-- The loggers `(g.LogOut, g.LogErr)` after `InitLogger` in `env`, from the log
level `level` of `g` at that point. -/
def loggersAfter (lib : Lib) (env : Environ) (level : GLevel) : Logger × Logger :=
  if Getenv env (lit "G_LOGGING") = lit "TASK" then
    (newTimestampLogger (.console ⟨.Stdout, true, lit "2006-01-02 15:04:05", .sprintfS⟩),
     newTimestampLogger (.console ⟨.Stderr, true, lit "2006-01-02 15:04:05", .sprintfS⟩))
  else if Getenv env (lit "G_LOGGING") = lit "MASTER" ∨
      Getenv env (lit "G_LOGGING") = lit "WORKER" then
    (newTimestampLogger (.file .Stdout), newTimestampLogger (.file .Stdout))
  else if lib.IsDebugLow level env = true then
    (newTimestampLogger (.console ⟨.Stderr, false, lit "2006-01-02 15:04:05", .unset⟩),
     newTimestampLogger (.console ⟨.Stderr, false, lit "2006-01-02 15:04:05", .unset⟩))
  else
    (newTimestampLogger (.console ⟨.Stderr, false, lit "3:04PM", .unset⟩),
     newTimestampLogger (.console ⟨.Stderr, false, lit "3:04PM", .unset⟩))

/-- Go `Env()`: the variables to propagate to a child process. -/
def Env (s : State) : GoMap :=
  [(lit "SLING_SEND_ANON_USAGE", ToString (!s.DisableSendAnonUsage))]

/-! ## Concrete values for the examples -/

/-- The empty environment: no variable set. -/
def noEnv : Environ := []

/-- A JSON credential body. -/
def jsonBody : GoString := lit "\x7b\"type\": \"service account\", \"id\": \"a+b/c=\"\x7d"

/-- An environment whose only variable is `GC_CRED_JSON_BODY_ENC`, holding the
escaped `jsonBody`. -/
def encEnv : Environ := [(lit "GC_CRED_JSON_BODY_ENC", QueryEscape jsonBody)]

/-- An environment with the plaintext credential body alone. -/
def plainEnv : Environ := [(lit "GC_CRED_JSON_BODY", lit "a")]

/-- An environment with the plaintext and the encoded credential body. -/
def bothEnv : Environ :=
  [(lit "GC_CRED_JSON_BODY", lit "a"), (lit "GC_CRED_JSON_BODY_ENC", lit "b")]

/-- An environment with the plaintext credential body and an encoded one
that does not decode. -/
def badEncEnv : Environ :=
  [(lit "GC_CRED_JSON_BODY", lit "a"), (lit "GC_CRED_JSON_BODY_ENC", lit "%zz")]

/-- A start state with the defaults of `zerolog` (`level`, `message`) and
telemetry enabled. -/
def state0 : State where
  DisableSendAnonUsage := false
  g := {
    LogLevel := .NormalLevel
    CallerLevel := 0
    DisableColor := false
    LogOut := newTimestampLogger (.file .Stdout)
    LogErr := newTimestampLogger (.file .Stderr) }
  zerolog := {
    GlobalLevel := .DebugLevel
    LevelFieldName := lit "level"
    MessageFieldName := lit "message" }

/-- The environment with `SLING_ENV=STG` alone. -/
def stgEnv : Environ := [(lit "SLING_ENV", lit "STG")]

/-- The state `state0` with the opt-out flag set. -/
def optedOut : State := { state0 with DisableSendAnonUsage := true }

/-- The environment with `SLING_SEND_ANON_USAGE=false` alone. -/
def noUsageEnv : Environ := [(lit "SLING_SEND_ANON_USAGE", lit "false")]

/-- A worker's environment: `G_LOGGING=WORKER`, `_DEBUG=LOW`,
`_DEBUG_CALLER_LEVEL=3`. -/
def workerEnv : Environ :=
  [(lit "G_LOGGING", lit "WORKER"), (lit "_DEBUG", lit "LOW"), (lit "_DEBUG_CALLER_LEVEL", lit "3")]

/-- A task's environment: `G_LOGGING=TASK`, `SLING_LOGGING_COLOR=true`. -/
def taskEnv : Environ := [(lit "G_LOGGING", lit "TASK"), (lit "SLING_LOGGING_COLOR", lit "true")]

/-- A library instance for the examples: `Marshal` fails on an event holding
a channel and returns an empty JSON object otherwise, `ClientDo` succeeds, `IsDebugLow` holds
at the low-debug and trace levels, `ToInt` reads one decimal digit. -/
def lib0 : Lib where
  Marshal := fun m =>
    if m.any (fun kv => kv.2 = GoValue.chan) then
      ([], some (lit "json: unsupported type: chan int"))
    else (lit "\x7b\x7d", none)
  ClientDo := fun _ => none
  IsDebugLow := fun l _ => l = .LowDebugLevel ∨ l = .TraceLevel
  ToInt := fun s =>
    match s with
    | [d] => if ch '0' ≤ d ∧ d ≤ ch '9' then ((d - ch '0').val : Int) else 0
    | _ => 0

/-! ## Maps: reads after writes -/

theorem GoMap.find_set_same (m : GoMap) (k v : GoString) :
    GoMap.find (GoMap.set m k v) k = some v := by
  induction m with
  | nil => simp [GoMap.set, GoMap.find]
  | cons kv rest ih =>
    obtain ⟨k', v'⟩ := kv
    by_cases h : k' = k
    · simp [GoMap.set, GoMap.find, h]
    · simp [GoMap.set, GoMap.find, h, ih]

theorem GoMap.find_set_other (m : GoMap) (k k' v : GoString) (h : k' ≠ k) :
    GoMap.find (GoMap.set m k v) k' = GoMap.find m k' := by
  induction m with
  | nil => simp [GoMap.set, GoMap.find, Ne.symm h]
  | cons kv rest ih =>
    obtain ⟨k₁, v₁⟩ := kv
    by_cases h₁ : k₁ = k
    · subst h₁
      simp [GoMap.set, GoMap.find, Ne.symm h]
    · by_cases h₂ : k₁ = k'
      · subst h₂
        simp [GoMap.set, GoMap.find, h₁]
      · simp [GoMap.set, GoMap.find, h₁, h₂, ih]

theorem GoMap.find_set (m : GoMap) (k k' v : GoString) :
    GoMap.find (GoMap.set m k v) k' = if k' = k then some v else GoMap.find m k' := by
  by_cases h : k' = k
  · subst h
    simp [GoMap.find_set_same]
  · simp [h, GoMap.find_set_other]

theorem GoMap.mem_keys_iff (m : GoMap) (k : GoString) :
    k ∈ GoMap.keys m ↔ (GoMap.find m k).isSome = true := by
  induction m with
  | nil => simp [GoMap.keys, GoMap.find]
  | cons kv rest ih =>
    obtain ⟨k₁, v₁⟩ := kv
    by_cases h : k₁ = k
    · simp [GoMap.keys, GoMap.find, h]
    · have ih' : k ∈ List.map Prod.fst rest ↔ (GoMap.find rest k).isSome = true := ih
      simp only [GoMap.keys, List.map_cons, List.mem_cons, GoMap.find, h, if_false]
      rw [ih']
      constructor
      · rintro (h' | h')
        · exact absurd h'.symm h
        · exact h'
      · exact fun h' => Or.inr h'

/-- The first loop of `EnvVars` over any list of names and any map. -/
theorem find_foldl_loadVar (env : Environ) (l : List GoString) (m : GoMap) (k : GoString) :
    GoMap.find (l.foldl (loadVar env) m) k =
      if k ∈ l ∧ GoMap.get m k = [] then some (Getenv env k) else GoMap.find m k := by
  induction l generalizing m with
  | nil => simp
  | cons a l ih =>
    rw [List.foldl_cons, ih]
    by_cases ha : a = k
    · subst ha
      by_cases hg : GoMap.get m a = []
      · have hload : loadVar env m a = GoMap.set m a (Getenv env a) := by
          simp [loadVar, hg]
        rw [hload, GoMap.find_set_same]
        simp [hg]
      · have hload : loadVar env m a = m := by
          simp [loadVar, hg]
        rw [hload]
        simp [hg]
    · have hk : k ≠ a := fun h => ha h.symm
      have hfind : GoMap.find (loadVar env m a) k = GoMap.find m k := by
        unfold loadVar
        split
        · exact GoMap.find_set_other m a k _ hk
        · rfl
      have hget : GoMap.get (loadVar env m a) k = GoMap.get m k := by
        simp [GoMap.get, hfind]
      simp [hfind, hget, hk]

/-! ## `EnvVars`: the value of every key -/

theorem conc_mem : lit "SLING_CONCURENCY_LIMIT" ∈ envVars := by decide

theorem sample_mem : lit "SLING_SAMPLE_SIZE" ∈ envVars := by decide

theorem enc_mem : lit "GC_CRED_JSON_BODY_ENC" ∈ envVars := by decide

theorem body_mem : lit "GC_CRED_JSON_BODY" ∈ envVars := by decide

theorem sample_ne_conc : lit "SLING_SAMPLE_SIZE" ≠ lit "SLING_CONCURENCY_LIMIT" := by decide

theorem enc_ne_conc : lit "GC_CRED_JSON_BODY_ENC" ≠ lit "SLING_CONCURENCY_LIMIT" := by decide

theorem enc_ne_sample : lit "GC_CRED_JSON_BODY_ENC" ≠ lit "SLING_SAMPLE_SIZE" := by decide

theorem body_ne_conc : lit "GC_CRED_JSON_BODY" ≠ lit "SLING_CONCURENCY_LIMIT" := by decide

theorem body_ne_sample : lit "GC_CRED_JSON_BODY" ≠ lit "SLING_SAMPLE_SIZE" := by decide

/-- After the first loop the map holds exactly the allowlisted names, each
with its value in the environment. -/
theorem find_loaded (env : Environ) (k : GoString) :
    GoMap.find (envVars.foldl (loadVar env) []) k =
      if k ∈ envVars then some (Getenv env k) else none := by
  rw [find_foldl_loadVar]
  simp [GoMap.get, GoMap.find]

/-- A default: `if vars[k0] == "" { vars[k0] = d }`. -/
theorem find_default (m : GoMap) (k0 d k : GoString) :
    GoMap.find (if GoMap.get m k0 = [] then GoMap.set m k0 d else m) k =
      if k = k0 ∧ GoMap.get m k0 = [] then some d else GoMap.find m k := by
  by_cases h : GoMap.get m k0 = []
  · simp [h, GoMap.find_set]
  · simp [h]

theorem get_eq_of_find {m : GoMap} {k v : GoString} (h : GoMap.find m k = some v) :
    GoMap.get m k = v := by
  simp [GoMap.get, h]

theorem find_defaulted (env : Environ) (k : GoString) :
    GoMap.find (defaulted env) k =
      if k ∈ envVars then
        some (if k = lit "SLING_CONCURENCY_LIMIT" ∧ Getenv env k = [] then lit "10"
          else if k = lit "SLING_SAMPLE_SIZE" ∧ Getenv env k = [] then lit "900"
          else Getenv env k)
      else none := by
  have hc : GoMap.get (envVars.foldl (loadVar env) []) (lit "SLING_CONCURENCY_LIMIT")
      = Getenv env (lit "SLING_CONCURENCY_LIMIT") :=
    get_eq_of_find (by rw [find_loaded, if_pos conc_mem])
  have hs : GoMap.get (if GoMap.get (envVars.foldl (loadVar env) []) (lit "SLING_CONCURENCY_LIMIT") = []
      then GoMap.set (envVars.foldl (loadVar env) []) (lit "SLING_CONCURENCY_LIMIT") (lit "10")
      else envVars.foldl (loadVar env) []) (lit "SLING_SAMPLE_SIZE")
      = Getenv env (lit "SLING_SAMPLE_SIZE") :=
    get_eq_of_find (by
      rw [find_default, find_loaded, if_pos sample_mem, if_neg]
      exact fun h => sample_ne_conc h.1)
  unfold defaulted
  dsimp only
  rw [find_default, hs, find_default, hc, find_loaded]
  by_cases k1 : k = lit "SLING_SAMPLE_SIZE"
  · subst k1
    simp only [sample_mem, sample_ne_conc, false_and, true_and, if_true, if_false]
    split <;> rfl
  · by_cases k2 : k = lit "SLING_CONCURENCY_LIMIT"
    · subst k2
      simp only [conc_mem, k1, false_and, true_and, if_true, if_false]
      split <;> rfl
    · simp [k1, k2]

theorem EnvVars_eq (env : Environ) :
    EnvVars env =
      if GoMap.get (defaulted env) (lit "GC_CRED_JSON_BODY_ENC") ≠ [] then
        GoMap.set (defaulted env) (lit "GC_CRED_JSON_BODY")
          (QueryUnescape (GoMap.get (defaulted env) (lit "GC_CRED_JSON_BODY_ENC"))).1
      else defaulted env := by
  unfold EnvVars defaulted
  dsimp only [List.foldl_nil]

theorem get_defaulted_enc (env : Environ) :
    GoMap.get (defaulted env) (lit "GC_CRED_JSON_BODY_ENC")
      = Getenv env (lit "GC_CRED_JSON_BODY_ENC") :=
  get_eq_of_find (by
    rw [find_defaulted, if_pos enc_mem, if_neg (fun h => enc_ne_conc h.1),
      if_neg (fun h => enc_ne_sample h.1)])

/-- The result of `EnvVars` key by key: exactly the allowlisted names are
present; `GC_CRED_JSON_BODY` holds the decoding of a non-empty
`GC_CRED_JSON_BODY_ENC`, the two tunables their default when empty, and every
other name its environment value. -/
theorem find_EnvVars (env : Environ) (k : GoString) :
    GoMap.find (EnvVars env) k =
      if k ∈ envVars then
        some (if k = lit "GC_CRED_JSON_BODY" ∧ Getenv env (lit "GC_CRED_JSON_BODY_ENC") ≠ [] then
            (QueryUnescape (Getenv env (lit "GC_CRED_JSON_BODY_ENC"))).1
          else if k = lit "SLING_CONCURENCY_LIMIT" ∧ Getenv env k = [] then lit "10"
          else if k = lit "SLING_SAMPLE_SIZE" ∧ Getenv env k = [] then lit "900"
          else Getenv env k)
      else none := by
  rw [EnvVars_eq, get_defaulted_enc]
  by_cases he : Getenv env (lit "GC_CRED_JSON_BODY_ENC") = []
  · simp [he, find_defaulted]
  · by_cases kb : k = lit "GC_CRED_JSON_BODY"
    · subst kb
      simp [he, GoMap.find_set_same, body_mem]
    · simp [he, kb, GoMap.find_set, find_defaulted]

/-! ## `net/url`: unescaping undoes escaping -/

set_option maxRecDepth 100000 in
/-- The two digits written for a byte are hex digits and decode to the byte. -/
theorem hex_digits (c : Byte) :
    ishex (upperhex.getD (c.val >>> 4) 0) = true ∧
    ishex (upperhex.getD (c.val &&& 15) 0) = true ∧
    Fin.ofNat ((((unhex (upperhex.getD (c.val >>> 4) 0)).val <<< 4) % 256) |||
      (unhex (upperhex.getD (c.val &&& 15) 0)).val) = c := by
  revert c
  decide

theorem shouldEscape_space : shouldEscape (ch ' ') = true := by decide

theorem shouldEscape_percent : shouldEscape (ch '%') = true := by decide

theorem shouldEscape_plus : shouldEscape (ch '+') = true := by decide

theorem plus_ne_percent : ch '+' ≠ ch '%' := by decide

theorem unescapeScan_other (c : Byte) (rest : GoString) (n : Nat) (hasPlus : Bool)
    (h1 : c ≠ ch '%') :
    unescapeScan (c :: rest) n hasPlus =
      if c = ch '+' then unescapeScan rest n true else unescapeScan rest n hasPlus := by
  match rest with
  | [] => simp only [unescapeScan, if_neg h1]
  | [_] => simp only [unescapeScan, if_neg h1]
  | _ :: _ :: _ => simp only [unescapeScan, if_neg h1]

theorem unescapeScan_percent (a b : Byte) (rest : GoString) (n : Nat) (hasPlus : Bool)
    (ha : ishex a = true) (hb : ishex b = true) :
    unescapeScan (ch '%' :: a :: b :: rest) n hasPlus = unescapeScan rest (n + 1) hasPlus := by
  simp only [unescapeScan, if_true, ha, hb, Bool.and_self]

theorem unescapeLoop_other (c : Byte) (rest : GoString) (h1 : c ≠ ch '%') :
    unescapeLoop (c :: rest) =
      if c = ch '+' then ch ' ' :: unescapeLoop rest else c :: unescapeLoop rest := by
  match rest with
  | [] => simp only [unescapeLoop, if_neg h1]
  | [_] => simp only [unescapeLoop, if_neg h1]
  | _ :: _ :: _ => simp only [unescapeLoop, if_neg h1]

theorem unescapeLoop_percent (a b : Byte) (rest : GoString) :
    unescapeLoop (ch '%' :: a :: b :: rest) =
      Fin.ofNat ((((unhex a).val <<< 4) % 256) ||| (unhex b).val) :: unescapeLoop rest := by
  simp only [unescapeLoop, if_true]

theorem escapeCount_cons (c : Byte) (rest : GoString) :
    escapeCount (c :: rest) =
      (if shouldEscape c = true ∧ c = ch ' ' then (escapeCount rest).1 + 1 else (escapeCount rest).1,
       if shouldEscape c = true ∧ c ≠ ch ' ' then (escapeCount rest).2 + 1 else (escapeCount rest).2) := by
  cases h : escapeCount rest with
  | mk a b =>
    by_cases h1 : shouldEscape c = true <;> by_cases h2 : c = ch ' ' <;>
      simp [escapeCount, h, h1, h2, shouldEscape_space]

theorem escapeLoop_eq_self (s : GoString) (h : escapeCount s = (0, 0)) : escapeLoop s = s := by
  induction s with
  | nil => rfl
  | cons c rest ih =>
    rw [escapeCount_cons] at h
    have hne : shouldEscape c ≠ true := by
      intro hs
      by_cases h2 : c = ch ' '
      · simp [hs, h2, shouldEscape_space] at h
      · simp [hs, h2] at h
    have hsp : c ≠ ch ' ' := fun h2 => hne (h2 ▸ shouldEscape_space)
    have hrest : escapeCount rest = (0, 0) := by
      simpa [hne] using h
    simp [escapeLoop, hsp, hne, ih hrest]

theorem escapeSpaces_eq_loop (s : GoString) (h : (escapeCount s).2 = 0) :
    escapeSpaces s = escapeLoop s := by
  induction s with
  | nil => rfl
  | cons c rest ih =>
    rw [escapeCount_cons] at h
    by_cases h2 : c = ch ' '
    · have hrest : (escapeCount rest).2 = 0 := by simpa [h2] using h
      simp [escapeSpaces, escapeLoop, h2, ih hrest]
    · have hne : shouldEscape c ≠ true := by
        intro hs
        simp [hs, h2] at h
      have hrest : (escapeCount rest).2 = 0 := by simpa [hne] using h
      simp [escapeSpaces, escapeLoop, h2, hne, ih hrest]

/-- `QueryEscape` is the last loop of `escape` on every input: the two early
returns give the same string. -/
theorem QueryEscape_eq_loop (s : GoString) : QueryEscape s = escapeLoop s := by
  unfold QueryEscape
  cases h : escapeCount s with
  | mk a b =>
    dsimp only
    by_cases h1 : a = 0 ∧ b = 0
    · rw [if_pos h1]
      obtain ⟨ha, hb⟩ := h1
      subst ha hb
      exact (escapeLoop_eq_self s h).symm
    · rw [if_neg h1]
      by_cases h2 : b = 0
      · rw [if_pos h2]
        exact escapeSpaces_eq_loop s (by rw [h]; exact h2)
      · rw [if_neg h2]

/-- The first loop of `unescape` accepts an escaped string: it counts one `%`
for every byte written as `%XX` and sees a `+` when a space was escaped. -/
theorem unescapeScan_escapeLoop (s : GoString) (n : Nat) (hasPlus : Bool) :
    unescapeScan (escapeLoop s) n hasPlus =
      .ok (n + (escapeCount s).2, hasPlus || decide (0 < (escapeCount s).1)) := by
  induction s generalizing n hasPlus with
  | nil => simp [escapeLoop, unescapeScan, escapeCount]
  | cons c rest ih =>
    rw [escapeCount_cons]
    by_cases h2 : c = ch ' '
    · subst h2
      rw [escapeLoop, if_pos rfl, unescapeScan_other _ _ _ _ plus_ne_percent, if_pos rfl, ih]
      simp [shouldEscape_space]
    · by_cases hs : shouldEscape c = true
      · obtain ⟨hi, lo, _⟩ := hex_digits c
        rw [escapeLoop, if_neg h2, if_pos hs, unescapeScan_percent _ _ _ _ _ hi lo, ih]
        simp only [hs, h2, ne_eq, not_false_eq_true, and_self, and_false, if_true, if_false]
        rw [Nat.add_assoc, Nat.add_comm 1]
      · have hp : c ≠ ch '%' := fun h => hs (h ▸ shouldEscape_percent)
        have hpl : c ≠ ch '+' := fun h => hs (h ▸ shouldEscape_plus)
        rw [escapeLoop, if_neg h2, if_neg hs, unescapeScan_other _ _ _ _ hp, if_neg hpl, ih]
        simp [hs]

/-- The second loop of `unescape` gives back the string that was escaped. -/
theorem unescapeLoop_escapeLoop (s : GoString) : unescapeLoop (escapeLoop s) = s := by
  induction s with
  | nil => rfl
  | cons c rest ih =>
    by_cases h2 : c = ch ' '
    · subst h2
      rw [escapeLoop, if_pos rfl, unescapeLoop_other _ _ plus_ne_percent, if_pos rfl, ih]
    · by_cases hs : shouldEscape c = true
      · obtain ⟨_, _, hc⟩ := hex_digits c
        rw [escapeLoop, if_neg h2, if_pos hs, unescapeLoop_percent, hc, ih]
      · have hp : c ≠ ch '%' := fun h => hs (h ▸ shouldEscape_percent)
        have hpl : c ≠ ch '+' := fun h => hs (h ▸ shouldEscape_plus)
        rw [escapeLoop, if_neg h2, if_neg hs, unescapeLoop_other _ _ hp, if_neg hpl, ih]

/-- Go `QueryUnescape(QueryEscape(s))` is `s`, with a nil error. -/
theorem QueryUnescape_QueryEscape (s : GoString) :
    QueryUnescape (QueryEscape s) = (s, none) := by
  rw [QueryEscape_eq_loop]
  unfold QueryUnescape
  rw [unescapeScan_escapeLoop]
  dsimp only
  split
  · rename_i h
    have hcount : escapeCount s = (0, 0) := by
      obtain ⟨h1, h2⟩ := h
      have h3 : (escapeCount s).1 = 0 := by simpa using h2
      have h4 : (escapeCount s).2 = 0 := by simpa using h1
      exact Prod.ext h3 h4
    rw [escapeLoop_eq_self s hcount]
  · rw [unescapeLoop_escapeLoop]

theorem QueryEscape_ne_nil (s : GoString) (h : s ≠ []) : QueryEscape s ≠ [] := by
  rw [QueryEscape_eq_loop]
  cases s with
  | nil => exact absurd rfl h
  | cons c rest =>
    unfold escapeLoop
    split
    · simp
    · split <;> simp

/-! ## Claims about `EnvVars` -/

/-- C1: when `GC_CRED_JSON_BODY_ENC` is unset or empty, `EnvVars` maps every
allowlisted name that is unset or empty in the environment to the empty
string, except `SLING_CONCURENCY_LIMIT`, which gets `"10"`, and
`SLING_SAMPLE_SIZE`, which gets `"900"`. -/
theorem EnvVars_unset_defaults (env : Environ) (k : GoString)
    (hEnc : Getenv env (lit "GC_CRED_JSON_BODY_ENC") = [])
    (hk : k ∈ envVars) (hunset : Getenv env k = []) :
    GoMap.find (EnvVars env) k =
      some (if k = lit "SLING_CONCURENCY_LIMIT" then lit "10"
        else if k = lit "SLING_SAMPLE_SIZE" then lit "900"
        else lit "") := by
  rw [find_EnvVars, if_pos hk]
  simp only [hEnc, hunset, ne_eq, not_true_eq_false, and_false, and_true, if_false]
  rfl

/-- C1, the scenario of the specification: with no variable set at all the
result has `SLING_SAMPLE_SIZE = "900"`, `SLING_CONCURENCY_LIMIT = "10"` and
`AWS_BUCKET = ""`. -/
theorem EnvVars_unset_defaults_witness :
    GoMap.find (EnvVars noEnv) (lit "SLING_SAMPLE_SIZE") = some (lit "900") ∧
    GoMap.find (EnvVars noEnv) (lit "SLING_CONCURENCY_LIMIT") = some (lit "10") ∧
    GoMap.find (EnvVars noEnv) (lit "AWS_BUCKET") = some (lit "") :=
  ⟨(EnvVars_unset_defaults noEnv (lit "SLING_SAMPLE_SIZE") rfl (by decide) rfl).trans (by decide),
   (EnvVars_unset_defaults noEnv (lit "SLING_CONCURENCY_LIMIT") rfl (by decide) rfl).trans
     (by decide),
   (EnvVars_unset_defaults noEnv (lit "AWS_BUCKET") rfl (by decide) rfl).trans (by decide)⟩

/-- C2: in every environment the keys of the map returned by `EnvVars` are
exactly the names of the allowlist `envVars`: every allowlisted name is a key
and nothing else is, whatever else the environment holds. -/
theorem EnvVars_keys (env : Environ) (k : GoString) :
    k ∈ GoMap.keys (EnvVars env) ↔ k ∈ envVars := by
  rw [GoMap.mem_keys_iff, find_EnvVars]
  by_cases hk : k ∈ envVars
  · simp [hk]
  · simp [hk]

/-- C6: for every non-empty string `s`, when `GC_CRED_JSON_BODY_ENC` holds
`url.QueryEscape(s)`, `EnvVars` returns `GC_CRED_JSON_BODY` equal to `s`. -/
theorem EnvVars_decodes_encoded_body (env : Environ) (s : GoString) (hs : s ≠ [])
    (henc : Getenv env (lit "GC_CRED_JSON_BODY_ENC") = QueryEscape s) :
    GoMap.find (EnvVars env) (lit "GC_CRED_JSON_BODY") = some s := by
  have hne : Getenv env (lit "GC_CRED_JSON_BODY_ENC") ≠ [] := by
    rw [henc]
    exact QueryEscape_ne_nil s hs
  rw [find_EnvVars, if_pos body_mem, if_pos ⟨rfl, hne⟩, henc, QueryUnescape_QueryEscape]

/-- C6 at a JSON credential body with quotes, a space and braces. -/
theorem EnvVars_decodes_encoded_body_witness :
    jsonBody ≠ [] ∧
    Getenv encEnv (lit "GC_CRED_JSON_BODY_ENC") = QueryEscape jsonBody ∧
    GoMap.find (EnvVars encEnv) (lit "GC_CRED_JSON_BODY") = some jsonBody :=
  ⟨by decide, by decide,
   EnvVars_decodes_encoded_body encEnv jsonBody (by decide) (by decide)⟩

/-- C7 fails as stated: with `GC_CRED_JSON_BODY=a` and
`GC_CRED_JSON_BODY_ENC=b` the result holds `b`, not the plaintext `a`. -/
theorem EnvVars_plaintext_overwritten :
    Getenv bothEnv (lit "GC_CRED_JSON_BODY") = lit "a" ∧
    GoMap.find (EnvVars bothEnv) (lit "GC_CRED_JSON_BODY") = some (lit "b") ∧
    GoMap.get (EnvVars bothEnv) (lit "GC_CRED_JSON_BODY") ≠
      Getenv bothEnv (lit "GC_CRED_JSON_BODY") := by
  have h : GoMap.find (EnvVars bothEnv) (lit "GC_CRED_JSON_BODY") = some (lit "b") := by
    rw [find_EnvVars, if_pos body_mem]
    decide
  refine ⟨by decide, h, ?_⟩
  rw [get_eq_of_find h]
  decide

/-- C7 as amended: whatever `GC_CRED_JSON_BODY` holds in the environment (a
non-empty value in particular), it is returned as it is when
`GC_CRED_JSON_BODY_ENC` is unset or empty; when the encoded variable is
non-empty and decodes, the result holds its decoding instead. -/
theorem EnvVars_body_precedence (env : Environ) :
    (Getenv env (lit "GC_CRED_JSON_BODY_ENC") = [] →
      GoMap.find (EnvVars env) (lit "GC_CRED_JSON_BODY")
        = some (Getenv env (lit "GC_CRED_JSON_BODY"))) ∧
    (∀ body : GoString, Getenv env (lit "GC_CRED_JSON_BODY_ENC") ≠ [] →
      QueryUnescape (Getenv env (lit "GC_CRED_JSON_BODY_ENC")) = (body, none) →
      GoMap.find (EnvVars env) (lit "GC_CRED_JSON_BODY") = some body) := by
  constructor
  · intro hEnc
    rw [find_EnvVars, if_pos body_mem, if_neg (fun h => h.2 hEnc),
      if_neg (fun h => body_ne_conc h.1), if_neg (fun h => body_ne_sample h.1)]
  · intro body hEnc hdec
    rw [find_EnvVars, if_pos body_mem, if_pos ⟨rfl, hEnc⟩, hdec]

/-- C7 as amended, in the two environments: the plaintext alone is kept, and
next to `GC_CRED_JSON_BODY_ENC=b` the result is `b`. -/
theorem EnvVars_body_precedence_witness :
    GoMap.find (EnvVars plainEnv) (lit "GC_CRED_JSON_BODY") = some (lit "a") ∧
    GoMap.find (EnvVars bothEnv) (lit "GC_CRED_JSON_BODY") = some (lit "b") :=
  ⟨(EnvVars_body_precedence plainEnv).1 (by decide),
   (EnvVars_body_precedence bothEnv).2 (lit "b") (by decide) (by decide)⟩

/-- What `EnvVars` does when `GC_CRED_JSON_BODY_ENC` does not decode:
`GC_CRED_JSON_BODY` becomes the empty string. -/
theorem EnvVars_body_on_decode_failure (env : Environ)
    (hEnc : Getenv env (lit "GC_CRED_JSON_BODY_ENC") ≠ [])
    (hfail : (QueryUnescape (Getenv env (lit "GC_CRED_JSON_BODY_ENC"))).2 ≠ none) :
    GoMap.find (EnvVars env) (lit "GC_CRED_JSON_BODY") = some [] := by
  rw [find_EnvVars, if_pos body_mem, if_pos ⟨rfl, hEnc⟩]
  unfold QueryUnescape at hfail ⊢
  cases h : unescapeScan (Getenv env (lit "GC_CRED_JSON_BODY_ENC")) 0 false with
  | error e => rfl
  | ok r =>
    rw [h] at hfail
    obtain ⟨n, hasPlus⟩ := r
    dsimp only at hfail
    split at hfail <;> exact absurd rfl hfail

/-- The decode failure at `GC_CRED_JSON_BODY_ENC=%zz` next to
`GC_CRED_JSON_BODY=a`: the result holds the empty string. -/
theorem EnvVars_body_on_decode_failure_witness :
    (QueryUnescape (lit "%zz")).2 = some (lit "%zz") ∧
    Getenv badEncEnv (lit "GC_CRED_JSON_BODY") = lit "a" ∧
    GoMap.find (EnvVars badEncEnv) (lit "GC_CRED_JSON_BODY") = some [] :=
  ⟨by decide, by decide, EnvVars_body_on_decode_failure badEncEnv (by decide) (by decide)⟩

/-! ## `LogEvent` -/

theorem requests_append (a b : List Effect) :
    requests (a ++ b) = requests a ++ requests b := by
  induction a with
  | nil => rfl
  | cons e rest ih =>
    cases e <;> simp [requests, ih]

theorem requests_logIfDebugLow (lib : Lib) (env : Environ) (s : State) (err : Option GoString) :
    requests (logIfDebugLow lib env s err) = [] := by
  unfold logIfDebugLow
  cases err with
  | none => rfl
  | some e =>
    dsimp only
    split <;> rfl

/-- With telemetry enabled `LogEvent` makes one call of `net.ClientDo`: a POST
of the bytes `json.Marshal` returned, looked at or not, to the endpoint the
environment selects. -/
theorem requests_LogEvent (lib : Lib) (env : Environ) (s : State) (m : Event)
    (hflag : s.DisableSendAnonUsage = false) :
    requests (LogEvent lib env s m) =
      [{ method := lit "POST",
         URL := if Getenv env (lit "SLING_ENV") = lit "STG" then
             lit "https://logapi.slingdata.io/log/event/stg"
           else lit "https://logapi.slingdata.io/log/event/prd",
         body := (lib.Marshal m).1,
         headers := [(lit "Content-Type", lit "application/json")],
         timeOut := 1 }] := by
  unfold LogEvent
  rw [hflag]
  simp only [Bool.false_eq_true, if_false]
  rw [requests_append, requests_append, requests_append, requests_logIfDebugLow,
    requests_logIfDebugLow]
  rfl

theorem stg_ne_prd :
    lit "https://logapi.slingdata.io/log/event/stg" ≠
      lit "https://logapi.slingdata.io/log/event/prd" := by
  decide

/-- C3: when the opt-out flag `DisableSendAnonUsage` is true, `LogEvent`
returns without calling anything: no HTTP request is issued and
`json.Marshal` is not called. -/
theorem LogEvent_opted_out (lib : Lib) (env : Environ) (s : State) (m : Event)
    (hflag : s.DisableSendAnonUsage = true) :
    LogEvent lib env s m = [] ∧
    requests (LogEvent lib env s m) = [] ∧
    marshals (LogEvent lib env s m) = [] := by
  have h : LogEvent lib env s m = [] := by
    unfold LogEvent
    rw [hflag]
    rfl
  rw [h]
  exact ⟨rfl, rfl, rfl⟩

/-- C3 at the event `x: 1` in the staging environment, flag set. -/
theorem LogEvent_opted_out_witness :
    optedOut.DisableSendAnonUsage = true ∧
    LogEvent lib0 stgEnv optedOut [(lit "x", GoValue.int 1)] = [] :=
  ⟨rfl, (LogEvent_opted_out lib0 stgEnv optedOut [(lit "x", GoValue.int 1)] rfl).1⟩

/-- C5: when the opt-out flag is false, `LogEvent` issues exactly one request,
a POST, and its target is the staging endpoint if and only if `SLING_ENV` is
exactly `STG`; for every other value, unset included, it is the production
endpoint. -/
theorem LogEvent_one_post (lib : Lib) (env : Environ) (s : State) (m : Event)
    (hflag : s.DisableSendAnonUsage = false) :
    ∃ r : Request, requests (LogEvent lib env s m) = [r] ∧ r.method = lit "POST" ∧
      (r.URL = lit "https://logapi.slingdata.io/log/event/stg" ↔
        Getenv env (lit "SLING_ENV") = lit "STG") ∧
      (Getenv env (lit "SLING_ENV") ≠ lit "STG" →
        r.URL = lit "https://logapi.slingdata.io/log/event/prd") := by
  refine ⟨_, requests_LogEvent lib env s m hflag, rfl, ?_, ?_⟩
  · dsimp only
    constructor
    · intro h
      by_contra hne
      rw [if_neg hne] at h
      exact stg_ne_prd h.symm
    · intro h
      rw [if_pos h]
  · intro hne
    dsimp only
    rw [if_neg hne]

/-- C5 in the staging environment and in the empty one. -/
theorem LogEvent_one_post_witness :
    (∃ r : Request, requests (LogEvent lib0 stgEnv state0 [(lit "x", GoValue.int 1)]) = [r] ∧
      r.URL = lit "https://logapi.slingdata.io/log/event/stg") ∧
    (∃ r : Request, requests (LogEvent lib0 noEnv state0 [(lit "x", GoValue.int 1)]) = [r] ∧
      r.URL = lit "https://logapi.slingdata.io/log/event/prd") := by
  constructor
  · obtain ⟨r, h1, _, h2, _⟩ := LogEvent_one_post lib0 stgEnv state0 [(lit "x", GoValue.int 1)] rfl
    exact ⟨r, h1, h2.2 (by decide)⟩
  · obtain ⟨r, h1, _, _, h3⟩ := LogEvent_one_post lib0 noEnv state0 [(lit "x", GoValue.int 1)] rfl
    exact ⟨r, h1, h3 (by decide)⟩

/-- C10 fails on the code: when `json.Marshal` returns an error and the
opt-out flag is false, `LogEvent` still issues one POST request, its body the
bytes `json.Marshal` returned next to the error. -/
theorem LogEvent_posts_after_marshal_failure (lib : Lib) (env : Environ) (s : State) (m : Event)
    (hflag : s.DisableSendAnonUsage = false) (hfail : (lib.Marshal m).2 ≠ none) :
    (lib.Marshal m).2 ≠ none ∧
    (requests (LogEvent lib env s m)).length = 1 ∧
    (requests (LogEvent lib env s m)).map Request.body = [(lib.Marshal m).1] := by
  rw [requests_LogEvent lib env s m hflag]
  exact ⟨hfail, rfl, rfl⟩

/-- C10 at an event holding a channel, which `json.Marshal` rejects: one
request with an empty body goes to the production endpoint. -/
theorem LogEvent_posts_after_marshal_failure_witness :
    (lib0.Marshal [(lit "x", GoValue.chan)]).2 ≠ none ∧
    (requests (LogEvent lib0 noEnv state0 [(lit "x", GoValue.chan)])).length = 1 ∧
    (requests (LogEvent lib0 noEnv state0 [(lit "x", GoValue.chan)])).map Request.body = [[]] :=
  LogEvent_posts_after_marshal_failure lib0 noEnv state0 [(lit "x", GoValue.chan)] rfl (by decide)

/-! ## `InitLogger`: what each variable holds afterwards -/

theorem SetZeroLogLevel_eq (level : ZLevel) (s : State) :
    SetZeroLogLevel level s =
      ⟨s.DisableSendAnonUsage, s.g,
        ⟨level, s.zerolog.LevelFieldName, s.zerolog.MessageFieldName⟩⟩ := rfl

theorem SetLogLevel_eq (level : GLevel) (s : State) :
    SetLogLevel level s =
      ⟨s.DisableSendAnonUsage,
        ⟨level, s.g.CallerLevel, s.g.DisableColor, s.g.LogOut, s.g.LogErr⟩, s.zerolog⟩ := rfl

theorem setColor_eq (env : Environ) (s : State) :
    setColor env s =
      ⟨s.DisableSendAnonUsage,
        ⟨s.g.LogLevel, s.g.CallerLevel, !ToBool (Getenv env (lit "SLING_LOGGING_COLOR")),
          s.g.LogOut, s.g.LogErr⟩, s.zerolog⟩ := rfl

theorem setOptOut_eq (env : Environ) (s : State) :
    setOptOut env s =
      ⟨if Getenv env (lit "SLING_SEND_ANON_USAGE") ≠ [] then
          ToBool (Getenv env (lit "SLING_SEND_ANON_USAGE"))
        else s.DisableSendAnonUsage, s.g, s.zerolog⟩ := by
  unfold setOptOut
  dsimp only
  split <;> rfl

theorem setCallerLevel_eq (lib : Lib) (env : Environ) (s : State) :
    setCallerLevel lib env s =
      ⟨s.DisableSendAnonUsage,
        ⟨s.g.LogLevel,
          if Getenv env (lit "_DEBUG_CALLER_LEVEL") ≠ [] then
            lib.ToInt (Getenv env (lit "_DEBUG_CALLER_LEVEL"))
          else s.g.CallerLevel,
          s.g.DisableColor, s.g.LogOut, s.g.LogErr⟩, s.zerolog⟩ := by
  unfold setCallerLevel
  split <;> rfl

theorem setDebugLevel_eq (env : Environ) (s : State) :
    setDebugLevel env s =
      ⟨s.DisableSendAnonUsage,
        ⟨if Getenv env (lit "_DEBUG") = lit "TRACE" then GLevel.TraceLevel
          else if Getenv env (lit "_DEBUG") ≠ [] then
            if Getenv env (lit "_DEBUG") = lit "LOW" then GLevel.LowDebugLevel
            else GLevel.DebugLevel
          else s.g.LogLevel,
          s.g.CallerLevel, s.g.DisableColor, s.g.LogOut, s.g.LogErr⟩,
        ⟨if Getenv env (lit "_DEBUG") = lit "TRACE" then ZLevel.TraceLevel
          else if Getenv env (lit "_DEBUG") ≠ [] then ZLevel.DebugLevel
          else s.zerolog.GlobalLevel,
          s.zerolog.LevelFieldName, s.zerolog.MessageFieldName⟩⟩ := by
  unfold setDebugLevel SetLogLevel SetZeroLogLevel
  dsimp only
  split_ifs <;> rfl

theorem setLoggers_eq (lib : Lib) (env : Environ) (s : State) :
    setLoggers lib env s =
      ⟨s.DisableSendAnonUsage,
        ⟨s.g.LogLevel, s.g.CallerLevel, s.g.DisableColor,
          if Getenv env (lit "G_LOGGING") = lit "TASK" then
            newTimestampLogger (.console ⟨.Stdout, true, lit "2006-01-02 15:04:05", .sprintfS⟩)
          else if Getenv env (lit "G_LOGGING") = lit "MASTER" ∨
              Getenv env (lit "G_LOGGING") = lit "WORKER" then
            newTimestampLogger (.file .Stdout)
          else if lib.IsDebugLow s.g.LogLevel env = true then
            newTimestampLogger (.console ⟨.Stderr, false, lit "2006-01-02 15:04:05", .unset⟩)
          else
            newTimestampLogger (.console ⟨.Stderr, false, lit "3:04PM", .unset⟩),
          if Getenv env (lit "G_LOGGING") = lit "TASK" then
            newTimestampLogger (.console ⟨.Stderr, true, lit "2006-01-02 15:04:05", .sprintfS⟩)
          else if Getenv env (lit "G_LOGGING") = lit "MASTER" ∨
              Getenv env (lit "G_LOGGING") = lit "WORKER" then
            newTimestampLogger (.file .Stdout)
          else if lib.IsDebugLow s.g.LogLevel env = true then
            newTimestampLogger (.console ⟨.Stderr, false, lit "2006-01-02 15:04:05", .unset⟩)
          else
            newTimestampLogger (.console ⟨.Stderr, false, lit "3:04PM", .unset⟩)⟩,
        ⟨s.zerolog.GlobalLevel,
          if Getenv env (lit "G_LOGGING") = lit "TASK" then s.zerolog.LevelFieldName
          else if Getenv env (lit "G_LOGGING") = lit "MASTER" ∨
              Getenv env (lit "G_LOGGING") = lit "WORKER" then lit "lvl"
          else s.zerolog.LevelFieldName,
          if Getenv env (lit "G_LOGGING") = lit "TASK" then s.zerolog.MessageFieldName
          else if Getenv env (lit "G_LOGGING") = lit "MASTER" ∨
              Getenv env (lit "G_LOGGING") = lit "WORKER" then lit "msg"
          else s.zerolog.MessageFieldName⟩⟩ := by
  unfold setLoggers
  dsimp only
  split_ifs <;> rfl

/-- The state after `InitLogger`, variable by variable. -/
theorem InitLogger_eq (lib : Lib) (env : Environ) (s : State) :
    InitLogger lib env s =
      ⟨if Getenv env (lit "SLING_SEND_ANON_USAGE") ≠ [] then
          ToBool (Getenv env (lit "SLING_SEND_ANON_USAGE"))
        else s.DisableSendAnonUsage,
        ⟨levelAfter env s.g.LogLevel,
          if Getenv env (lit "_DEBUG_CALLER_LEVEL") ≠ [] then
            lib.ToInt (Getenv env (lit "_DEBUG_CALLER_LEVEL"))
          else s.g.CallerLevel,
          !ToBool (Getenv env (lit "SLING_LOGGING_COLOR")),
          (loggersAfter lib env (levelAfter env s.g.LogLevel)).1,
          (loggersAfter lib env (levelAfter env s.g.LogLevel)).2⟩,
        ⟨if Getenv env (lit "_DEBUG") = lit "TRACE" then ZLevel.TraceLevel
          else if Getenv env (lit "_DEBUG") ≠ [] then ZLevel.DebugLevel
          else ZLevel.InfoLevel,
          if Getenv env (lit "G_LOGGING") = lit "TASK" then s.zerolog.LevelFieldName
          else if Getenv env (lit "G_LOGGING") = lit "MASTER" ∨
              Getenv env (lit "G_LOGGING") = lit "WORKER" then lit "lvl"
          else s.zerolog.LevelFieldName,
          if Getenv env (lit "G_LOGGING") = lit "TASK" then s.zerolog.MessageFieldName
          else if Getenv env (lit "G_LOGGING") = lit "MASTER" ∨
              Getenv env (lit "G_LOGGING") = lit "WORKER" then lit "msg"
          else s.zerolog.MessageFieldName⟩⟩ := by
  unfold InitLogger
  dsimp only
  rw [SetZeroLogLevel_eq, setColor_eq]
  dsimp only
  rw [setOptOut_eq]
  dsimp only
  rw [setCallerLevel_eq]
  dsimp only
  rw [setDebugLevel_eq]
  dsimp only
  rw [setLoggers_eq]
  dsimp only
  unfold loggersAfter levelAfter
  split_ifs <;> rfl


/-! ## Claims about `InitLogger` -/

theorem master_ne_task : lit "MASTER" ≠ lit "TASK" := by decide

theorem worker_ne_task : lit "WORKER" ≠ lit "TASK" := by decide

theorem not_task_of_master_worker {v : GoString} (h : v = lit "MASTER" ∨ v = lit "WORKER") :
    v ≠ lit "TASK" := by
  rcases h with h | h
  · rw [h]
    exact master_ne_task
  · rw [h]
    exact worker_ne_task

theorem levelAfter_levelAfter (e1 e2 : Environ) (old : GLevel)
    (h : Getenv e2 (lit "_DEBUG") ≠ [] ∨ Getenv e1 (lit "_DEBUG") = []) :
    levelAfter e2 (levelAfter e1 old) = levelAfter e2 old := by
  rcases h with h | h
  · unfold levelAfter
    simp only [if_pos h]
  · have h1 : levelAfter e1 old = old := by
      unfold levelAfter
      rw [h, if_neg (by decide), if_neg (by decide)]
    rw [h1]

/-- C4 fails on the code: with `SLING_SEND_ANON_USAGE=false` in the
environment, `InitLogger` leaves the opt-out flag false, the following
`LogEvent` issues one request, and `Env()` hands `SLING_SEND_ANON_USAGE=true`
on to child processes. -/
theorem InitLogger_anon_usage_false_still_posts (lib : Lib) (env : Environ) (s : State)
    (m : Event) (h : Getenv env (lit "SLING_SEND_ANON_USAGE") = lit "false") :
    (InitLogger lib env s).DisableSendAnonUsage = false ∧
    (requests (LogEvent lib env (InitLogger lib env s) m)).length = 1 ∧
    Env (InitLogger lib env s) = [(lit "SLING_SEND_ANON_USAGE", lit "true")] := by
  have hflag : (InitLogger lib env s).DisableSendAnonUsage = false := by
    have hne : lit "false" ≠ [] := by decide
    have hb : ToBool (lit "false") = false := by decide
    rw [InitLogger_eq]
    dsimp only
    rw [h, if_pos hne, hb]
  refine ⟨hflag, ?_, ?_⟩
  · rw [requests_LogEvent lib env _ m hflag]
    rfl
  · unfold Env
    rw [hflag]
    rfl

/-- C4 at the scenario of the specification: `SLING_SEND_ANON_USAGE=false`,
then `InitLogger`, then `LogEvent` of the event `x: 1`. -/
theorem InitLogger_anon_usage_false_still_posts_witness :
    Getenv noUsageEnv (lit "SLING_SEND_ANON_USAGE") = lit "false" ∧
    (InitLogger lib0 noUsageEnv state0).DisableSendAnonUsage = false ∧
    (requests (LogEvent lib0 noUsageEnv (InitLogger lib0 noUsageEnv state0)
      [(lit "x", GoValue.int 1)])).length = 1 :=
  ⟨by decide,
   (InitLogger_anon_usage_false_still_posts lib0 noUsageEnv state0 [(lit "x", GoValue.int 1)]
     (by decide)).1,
   (InitLogger_anon_usage_false_still_posts lib0 noUsageEnv state0 [(lit "x", GoValue.int 1)]
     (by decide)).2.1⟩

/-- C8 fails as stated: after `InitLogger` under `workerEnv` and then under
the empty environment, the field names, the caller level and the log level of
`g` are those of the first run, which a single run under the empty
environment does not produce. -/
theorem InitLogger_twice_carries_over :
    (InitLogger lib0 noEnv (InitLogger lib0 workerEnv state0)).zerolog.LevelFieldName
      = lit "lvl" ∧
    (InitLogger lib0 noEnv state0).zerolog.LevelFieldName = lit "level" ∧
    (InitLogger lib0 noEnv (InitLogger lib0 workerEnv state0)).g.CallerLevel = 3 ∧
    (InitLogger lib0 noEnv state0).g.CallerLevel = 0 ∧
    (InitLogger lib0 noEnv (InitLogger lib0 workerEnv state0)).g.LogLevel
      = GLevel.LowDebugLevel ∧
    (InitLogger lib0 noEnv state0).g.LogLevel = GLevel.NormalLevel ∧
    (InitLogger lib0 noEnv (InitLogger lib0 workerEnv state0)).logging
      ≠ (InitLogger lib0 noEnv state0).logging := by
  decide

/-- C8 as amended: running `InitLogger` under `e1` and then under `e2` leaves
the logging state that a single run under `e2` produces whenever each of the
three conditional writes is made by the second run or was not made by the
first: `_DEBUG_CALLER_LEVEL` and `_DEBUG` are non-empty in `e2` or empty in
`e1`, and `G_LOGGING` is `MASTER` or `WORKER` in `e2` or neither in `e1`. -/
theorem InitLogger_twice (lib : Lib) (e1 e2 : Environ) (s : State)
    (hcaller : Getenv e2 (lit "_DEBUG_CALLER_LEVEL") ≠ [] ∨
      Getenv e1 (lit "_DEBUG_CALLER_LEVEL") = [])
    (hdebug : Getenv e2 (lit "_DEBUG") ≠ [] ∨ Getenv e1 (lit "_DEBUG") = [])
    (hmode : (Getenv e2 (lit "G_LOGGING") = lit "MASTER" ∨
        Getenv e2 (lit "G_LOGGING") = lit "WORKER") ∨
      ¬ (Getenv e1 (lit "G_LOGGING") = lit "MASTER" ∨
        Getenv e1 (lit "G_LOGGING") = lit "WORKER")) :
    (InitLogger lib e2 (InitLogger lib e1 s)).logging = (InitLogger lib e2 s).logging := by
  rw [InitLogger_eq lib e2 (InitLogger lib e1 s), InitLogger_eq lib e2 s, InitLogger_eq lib e1 s]
  unfold State.logging
  dsimp only
  rw [levelAfter_levelAfter e1 e2 s.g.LogLevel hdebug]
  have hc : (if Getenv e2 (lit "_DEBUG_CALLER_LEVEL") ≠ [] then
        lib.ToInt (Getenv e2 (lit "_DEBUG_CALLER_LEVEL"))
      else if Getenv e1 (lit "_DEBUG_CALLER_LEVEL") ≠ [] then
        lib.ToInt (Getenv e1 (lit "_DEBUG_CALLER_LEVEL"))
      else s.g.CallerLevel) =
      (if Getenv e2 (lit "_DEBUG_CALLER_LEVEL") ≠ [] then
        lib.ToInt (Getenv e2 (lit "_DEBUG_CALLER_LEVEL"))
      else s.g.CallerLevel) := by
    rcases hcaller with h | h
    · rw [if_pos h, if_pos h]
    · rw [if_neg (not_not.mpr h)]
  have hn : ∀ (name old : GoString),
      (if Getenv e2 (lit "G_LOGGING") = lit "TASK" then
        (if Getenv e1 (lit "G_LOGGING") = lit "TASK" then old
          else if Getenv e1 (lit "G_LOGGING") = lit "MASTER" ∨
            Getenv e1 (lit "G_LOGGING") = lit "WORKER" then name
          else old)
      else if Getenv e2 (lit "G_LOGGING") = lit "MASTER" ∨
          Getenv e2 (lit "G_LOGGING") = lit "WORKER" then name
      else (if Getenv e1 (lit "G_LOGGING") = lit "TASK" then old
          else if Getenv e1 (lit "G_LOGGING") = lit "MASTER" ∨
            Getenv e1 (lit "G_LOGGING") = lit "WORKER" then name
          else old)) =
      (if Getenv e2 (lit "G_LOGGING") = lit "TASK" then old
      else if Getenv e2 (lit "G_LOGGING") = lit "MASTER" ∨
          Getenv e2 (lit "G_LOGGING") = lit "WORKER" then name
      else old) := by
    intro name old
    rcases hmode with h | h
    · rw [if_neg (not_task_of_master_worker h), if_pos h,
        if_neg (not_task_of_master_worker h), if_pos h]
    · rw [if_neg h]
      simp only [ite_self]
  rw [hc, hn (lit "lvl"), hn (lit "msg")]

/-- C8 as amended, at a first run in task mode and a second run in worker
mode with low debugging. -/
theorem InitLogger_twice_witness :
    (InitLogger lib0 workerEnv (InitLogger lib0 taskEnv state0)).logging
      = (InitLogger lib0 workerEnv state0).logging :=
  InitLogger_twice lib0 taskEnv workerEnv state0 (by decide) (by decide) (by decide)

/-- C9: when `G_LOGGING` is `MASTER` or `WORKER`, after `InitLogger` the level
field is named `lvl`, the message field `msg`, and the writer of `g.LogOut` and
of `g.LogErr` is the file `os.Stdout` itself: a plain writer, which has no
color, not a console writer and not standard error. -/
theorem InitLogger_master_worker (lib : Lib) (env : Environ) (s : State)
    (h : Getenv env (lit "G_LOGGING") = lit "MASTER" ∨
      Getenv env (lit "G_LOGGING") = lit "WORKER") :
    (InitLogger lib env s).zerolog.LevelFieldName = lit "lvl" ∧
    (InitLogger lib env s).zerolog.MessageFieldName = lit "msg" ∧
    (InitLogger lib env s).g.LogOut = { w := Writer.file Stream.Stdout, timestamp := true } ∧
    (InitLogger lib env s).g.LogErr = { w := Writer.file Stream.Stdout, timestamp := true } ∧
    (InitLogger lib env s).g.LogOut.w = Writer.file Stream.Stdout ∧
    (InitLogger lib env s).g.LogErr.w = Writer.file Stream.Stdout ∧
    (∀ cw : ConsoleWriter, (InitLogger lib env s).g.LogOut.w ≠ Writer.console cw) ∧
    (∀ cw : ConsoleWriter, (InitLogger lib env s).g.LogErr.w ≠ Writer.console cw) ∧
    (InitLogger lib env s).g.LogOut.w ≠ Writer.file Stream.Stderr ∧
    (InitLogger lib env s).g.LogErr.w ≠ Writer.file Stream.Stderr := by
  have hout : (InitLogger lib env s).g.LogOut
      = { w := Writer.file Stream.Stdout, timestamp := true } := by
    rw [InitLogger_eq]
    dsimp only
    unfold loggersAfter
    rw [if_neg (not_task_of_master_worker h), if_pos h]
    rfl
  have herr : (InitLogger lib env s).g.LogErr
      = { w := Writer.file Stream.Stdout, timestamp := true } := by
    rw [InitLogger_eq]
    dsimp only
    unfold loggersAfter
    rw [if_neg (not_task_of_master_worker h), if_pos h]
    rfl
  have houtw : (InitLogger lib env s).g.LogOut.w = Writer.file Stream.Stdout := by
    rw [hout]
  have herrw : (InitLogger lib env s).g.LogErr.w = Writer.file Stream.Stdout := by
    rw [herr]
  refine ⟨?_, ?_, hout, herr, houtw, herrw, ?_, ?_, ?_, ?_⟩
  · rw [InitLogger_eq]
    dsimp only
    rw [if_neg (not_task_of_master_worker h), if_pos h]
  · rw [InitLogger_eq]
    dsimp only
    rw [if_neg (not_task_of_master_worker h), if_pos h]
  · intro cw hc
    rw [houtw] at hc
    exact Writer.noConfusion hc
  · intro cw hc
    rw [herrw] at hc
    exact Writer.noConfusion hc
  · rw [houtw]
    decide
  · rw [herrw]
    decide

/-- C9 at the scenario of the specification, `G_LOGGING=WORKER`. -/
theorem InitLogger_master_worker_witness :
    (Getenv workerEnv (lit "G_LOGGING") = lit "MASTER" ∨
      Getenv workerEnv (lit "G_LOGGING") = lit "WORKER") ∧
    (InitLogger lib0 workerEnv state0).zerolog.LevelFieldName = lit "lvl" ∧
    (InitLogger lib0 workerEnv state0).zerolog.MessageFieldName = lit "msg" ∧
    (InitLogger lib0 workerEnv state0).g.LogOut.w = Writer.file Stream.Stdout ∧
    (InitLogger lib0 workerEnv state0).g.LogErr.w = Writer.file Stream.Stdout :=
  ⟨by decide,
   (InitLogger_master_worker lib0 workerEnv state0 (by decide)).1,
   (InitLogger_master_worker lib0 workerEnv state0 (by decide)).2.1,
   (InitLogger_master_worker lib0 workerEnv state0 (by decide)).2.2.2.2.1,
   (InitLogger_master_worker lib0 workerEnv state0 (by decide)).2.2.2.2.2.1⟩

end Sling
